import Mathlib

/-!
Shallow embedding of `src/cpp/main.cpp` from last9/opentelemetry-examples:
an OpenTelemetry C++ demo that initializes a tracer provider (OTLP HTTP
exporter behind a batch span processor, resource built from environment
variables), then simulates ten HTTP requests.  Each request opens a
server-kind span, nests an internal-kind span (dice roll) and a
client-kind span (database call) inside it, and closes them in order.

The embedding models the program as explicit state passing over
`ProgState`: a logical clock (milliseconds; span start/end operations
tick it by one, sleeps advance it by the slept duration), the list of
spans created so far (a span's id is its index in the list), the
thread-local active-span stack (`WithActiveSpan` pushes, scope exit
pops), the batch processor's queue of ended-but-unexported span ids, the
batches handed to the exporter, and the program's console output.
Randomness (`rand()` draws and the dice generator draw) enters as
explicit `Nat` parameters.  The external OTLP exporter is opaque: a
flushed batch is simply recorded in `batches`.
-/

set_option autoImplicit false

/-- Span kinds used by the program (`SpanKind::kServer`, `kInternal`, `kClient`). -/
inductive SpanKind where
  | server
  | internal
  | client
deriving DecidableEq, Repr

/-- Scalar attribute values set by the program: strings and C++ int literals. -/
inductive AttrValue where
  | str (s : String)
  | int (n : Int)
deriving DecidableEq, Repr

/-- One span record: name, kind, parent linkage (id of the span that was on
top of the active-span stack when this span started), start/end clock
values, and the attribute list in the order the program set them. -/
structure Span where
  name : String
  kind : SpanKind
  parent : Option Nat
  startTime : Nat
  endTime : Option Nat
  attrs : List (String × AttrValue)
deriving DecidableEq, Repr

/-- One batch handed to the exporter: the ids of the spans in the batch and
the resource attributes of the provider that emitted it. -/
structure Batch where
  spanIds : List Nat
  resourceAttributes : List (String × String)
deriving DecidableEq, Repr

/-- The tracer provider installed by `InitTracer`: resource descriptor plus
the batch-processor configuration from the source. -/
structure TracerProvider where
  resourceAttributes : List (String × String)
  max_queue_size : Nat
  max_export_batch_size : Nat
deriving DecidableEq, Repr

/-- Span-pipeline events, without timestamps: which spans were started and
ended and which attributes were attached, in program order.  A span is
identified by its id (index in `ProgState.spans`). -/
inductive Event where
  | startSpan (id : Nat) (name : String) (kind : SpanKind)
  | setAttribute (id : Nat) (key : String) (value : AttrValue)
  | endSpan (id : Nat)
deriving DecidableEq, Repr

/-- The whole-program state threaded through the embedding. -/
structure ProgState where
  clock : Nat
  provider : Option TracerProvider
  spans : List Span
  stack : List Nat
  buffer : List Nat
  batches : List Batch
  lost : List Nat
  destroyedProviders : Nat
  events : List Event
  output : List String
deriving Repr

/-- The state at process start: everything empty, clock zero. -/
def initialProgState : ProgState :=
  { clock := 0, provider := none, spans := [], stack := [], buffer := [],
    batches := [], lost := [], destroyedProviders := 0, events := [], output := [] }

/-- Replace the span at index `id` by `f` of it; out-of-range ids leave the
list unchanged. -/
def updateSpan : List Span → Nat → (Span → Span) → List Span
  | [], _, _ => []
  | s :: rest, 0, f => f s :: rest
  | s :: rest, n + 1, f => s :: updateSpan rest n f

/-- Append one attribute to a span's attribute list. -/
def addAttr (key : String) (value : AttrValue) : Span → Span
  | ⟨name, kind, parent, startTime, endTime, attrs⟩ =>
    ⟨name, kind, parent, startTime, endTime, attrs ++ [(key, value)]⟩

/-- Record a span's end time. -/
def setEnd (t : Nat) : Span → Span
  | ⟨name, kind, parent, startTime, _, attrs⟩ =>
    ⟨name, kind, parent, startTime, some t, attrs⟩

/-- `tracer->StartSpan(name, opts)`: append a new span whose parent is the
top of the active-span stack and whose start time is the current clock.
The new span's id is the previous length of `spans`.  (The operations
below destructure the state so that proofs reduce them by iota.) -/
def startSpan : ProgState → String → SpanKind → ProgState
  | ⟨clock, provider, spans, stack, buffer, batches, lost, destroyed, events, output⟩,
    name, kind =>
    ⟨clock + 1, provider,
     spans ++ [⟨name, kind, stack.head?, clock, none, []⟩],
     stack, buffer, batches, lost, destroyed,
     events ++ [Event.startSpan spans.length name kind], output⟩

/-- `tracer->WithActiveSpan(span)`: push the span's id onto the stack. -/
def withActiveSpan : ProgState → Nat → ProgState
  | ⟨clock, provider, spans, stack, buffer, batches, lost, destroyed, events, output⟩, id =>
    ⟨clock, provider, spans, id :: stack, buffer, batches, lost, destroyed, events, output⟩

/-- Destruction of a `Scope` object at the end of a C++ block: pop the
active-span stack. -/
def endScope : ProgState → ProgState
  | ⟨clock, provider, spans, stack, buffer, batches, lost, destroyed, events, output⟩ =>
    ⟨clock, provider, spans, stack.tail, buffer, batches, lost, destroyed, events, output⟩

/-- `span->SetAttribute(key, value)`: append the pair to the span's
attribute list. -/
def setAttribute : ProgState → Nat → String → AttrValue → ProgState
  | ⟨clock, provider, spans, stack, buffer, batches, lost, destroyed, events, output⟩,
    id, key, value =>
    ⟨clock, provider, updateSpan spans id (addAttr key value),
     stack, buffer, batches, lost, destroyed,
     events ++ [Event.setAttribute id key value], output⟩

/-- `span->End()`: record the end time and hand the span id to the batch
processor's queue (`OnEnd` enqueues; export happens on the worker). -/
def endSpan : ProgState → Nat → ProgState
  | ⟨clock, provider, spans, stack, buffer, batches, lost, destroyed, events, output⟩, id =>
    ⟨clock + 1, provider, updateSpan spans id (setEnd clock),
     stack, buffer ++ [id], batches, lost, destroyed,
     events ++ [Event.endSpan id], output⟩

/-- `std::this_thread::sleep_for`: advance the clock by `ms` milliseconds. -/
def sleep_for : ProgState → Nat → ProgState
  | ⟨clock, provider, spans, stack, buffer, batches, lost, destroyed, events, output⟩, ms =>
    ⟨clock + ms, provider, spans, stack, buffer, batches, lost, destroyed, events, output⟩

/-- `std::cout << line`: append one line of console output. -/
def printLine : ProgState → String → ProgState
  | ⟨clock, provider, spans, stack, buffer, batches, lost, destroyed, events, output⟩, line =>
    ⟨clock, provider, spans, stack, buffer, batches, lost, destroyed, events, output ++ [line]⟩

/-- One background pass of the batch processor's worker thread: if a
provider is installed and the queue is nonempty, dequeue up to
`max_export_batch_size` spans in FIFO order and emit them as one batch
carrying the provider's resource attributes.  The worker's scheduling is
external, so runs of the program are parametrized by how many such passes
happen. -/
def flushBatch (st : ProgState) : ProgState :=
  match st.provider with
  | none => st
  | some p =>
    if st.buffer.isEmpty then st
    else
      { st with
        buffer := st.buffer.drop p.max_export_batch_size,
        batches := st.batches ++
          [{ spanIds := st.buffer.take p.max_export_batch_size,
             resourceAttributes := p.resourceAttributes }] }

/-- `trace_api::Provider::SetTracerProvider(p)`: install `p` as the global
provider.  The previously installed provider (a `shared_ptr` whose last
reference this was) is destroyed, counted in `destroyedProviders`. -/
def SetTracerProvider (st : ProgState) (p : Option TracerProvider) : ProgState :=
  { st with
    provider := p,
    destroyedProviders := st.destroyedProviders + (if st.provider.isSome then 1 else 0) }

/-- `std::getenv` wrapper from the source: the variable's value when set,
the supplied default otherwise. -/
def GetEnvVar (env : String → Option String) (var_name default_value : String) : String :=
  match env var_name with
  | some value => value
  | none => default_value

/-- Semantic-conventions key for the service name attribute. -/
def kServiceName : String := "service.name"

/-- `InitTracer()`: read configuration from the environment, build the
resource descriptor, create the batch processor (queue 2048, batch 512)
and tracer provider, and install it globally.  The exporter-endpoint
banner line is determined by the opaque exporter options and is not
modeled; the two fully determined console lines are. -/
def InitTracer (env : String → Option String) (st : ProgState) : ProgState :=
  let service_name := GetEnvVar env "OTEL_SERVICE_NAME" "cpp-sample-app"
  let deployment_env := GetEnvVar env "DEPLOYMENT_ENVIRONMENT" "local"
  let provider : TracerProvider :=
    { resourceAttributes :=
        [(kServiceName, service_name), ("deployment.environment", deployment_env)],
      max_queue_size := 2048,
      max_export_batch_size := 512 }
  let st := SetTracerProvider st (some provider)
  let st := printLine st "Tracer initialized successfully!"
  printLine st ("Service: " ++ service_name ++ ", Environment: " ++ deployment_env)

/-- `CleanupTracer()`: sleep two seconds to give the batch processor time
to flush (the worker performs some number `k` of background passes during
the wait, chosen by the external scheduler), then reset the global
provider to empty; span ids still queued at that point are lost. -/
def CleanupTracer (k : Nat) (st : ProgState) : ProgState :=
  let st := flushBatch^[k] (sleep_for st 2000)
  let st := SetTracerProvider { st with lost := st.lost ++ st.buffer, buffer := [] } none
  printLine st "Tracer cleaned up."

/-- `RollDice()`: `std::uniform_int_distribution<>(1, 6)` applied to one
generator draw `g`, modeled as `1 + g % 6`. -/
def RollDice (g : Nat) : Nat :=
  1 + g % 6

/-- First part of `ProcessRequest`: start the server-kind span for the
incoming request, activate it, and set the HTTP server span attributes. -/
def serverSetup (request_id : Int) (st : ProgState) : ProgState :=
  let server_id := st.spans.length
  let st := startSpan st "GET /roll-dice" SpanKind.server
  let st := withActiveSpan st server_id
  let st := setAttribute st server_id "http.method" (AttrValue.str "GET")
  let st := setAttribute st server_id "http.scheme" (AttrValue.str "http")
  let st := setAttribute st server_id "http.target" (AttrValue.str "/roll-dice")
  let st := setAttribute st server_id "http.route" (AttrValue.str "/roll-dice")
  let st := setAttribute st server_id "http.host" (AttrValue.str "localhost:8080")
  let st := setAttribute st server_id "http.user_agent" (AttrValue.str "curl/7.68.0")
  let st := setAttribute st server_id "http.request_content_length" (AttrValue.int 0)
  let st := setAttribute st server_id "net.host.name" (AttrValue.str "localhost")
  let st := setAttribute st server_id "net.host.port" (AttrValue.int 8080)
  setAttribute st server_id "request.id" (AttrValue.int request_id)

/-- The first C++ block of `ProcessRequest`: the INTERNAL span simulating
processing, with the simulated-work sleep, the dice roll and its
attribute and console line; the span is ended and its scope closed at the
end of the block. -/
def internalBlock (request_id : Int) (r1 g : Nat) (st : ProgState) : ProgState :=
  let child_id := st.spans.length
  let st := startSpan st "roll_dice" SpanKind.internal
  let st := withActiveSpan st child_id
  let st := sleep_for st (50 + r1 % 100)
  let dice_result := RollDice g
  let st := setAttribute st child_id "dice.result" (AttrValue.int (Int.ofNat dice_result))
  let st := printLine st
    ("Request " ++ toString request_id ++ ": Rolled a " ++ toString dice_result)
  let st := endSpan st child_id
  endScope st

/-- The second C++ block of `ProcessRequest`: the CLIENT span simulating a
database call, with its attributes and simulated latency; the span is
ended and its scope closed at the end of the block. -/
def clientBlock (r2 : Nat) (st : ProgState) : ProgState :=
  let db_id := st.spans.length
  let st := startSpan st "postgresql.query" SpanKind.client
  let st := withActiveSpan st db_id
  let st := setAttribute st db_id "db.system" (AttrValue.str "postgresql")
  let st := setAttribute st db_id "db.name" (AttrValue.str "dice_db")
  let st := setAttribute st db_id "db.operation" (AttrValue.str "INSERT")
  let st := setAttribute st db_id "db.statement" (AttrValue.str "INSERT INTO rolls (value) VALUES ($1)")
  let st := setAttribute st db_id "net.peer.name" (AttrValue.str "db.example.com")
  let st := setAttribute st db_id "net.peer.port" (AttrValue.int 5432)
  let st := sleep_for st (20 + r2 % 50)
  let st := endSpan st db_id
  endScope st

/-- `ProcessRequest(request_id)`: the span emission pipeline for one
simulated request, split along the source's block structure.  `r1` and
`r2` are the two `rand()` draws used for the simulated sleep durations,
and `g` is the generator draw behind `RollDice`.  After the two nested
blocks, the response attributes are set on the server span, the server
span is ended, and its scope (alive for the whole function body) is
closed on return. -/
def ProcessRequest (request_id : Int) (r1 r2 g : Nat) (st : ProgState) : ProgState :=
  let server_id := st.spans.length
  let st := serverSetup request_id st
  let st := internalBlock request_id r1 g st
  let st := clientBlock r2 st
  let st := setAttribute st server_id "http.status_code" (AttrValue.int 200)
  let st := setAttribute st server_id "http.response_content_length" (AttrValue.int 42)
  let st := endSpan st server_id
  endScope st

/-- The number of simulated requests in `main`. -/
def num_requests : Nat := 10

/-- The request loop of `main`, starting at request id `i` with `n`
requests remaining.  `rands i` gives the random draws consumed by request
`i`, and `fs i` the number of background batch-processor passes that
happen during the 500 ms pause after request `i`. -/
def runLoop (rands : Nat → Nat × Nat × Nat) (fs : Nat → Nat) :
    Nat → Nat → ProgState → ProgState
  | _, 0, st => st
  | i, n + 1, st =>
    let st := ProcessRequest (Int.ofNat i) (rands i).1 (rands i).2.1 (rands i).2.2 st
    let st := flushBatch^[fs i] (sleep_for st 500)
    runLoop rands fs (i + 1) n st

/-- `main()`: banner, `InitTracer`, ten `ProcessRequest` calls with pauses,
`CleanupTracer`, closing banner. -/
def mainProgram (env : String → Option String) (rands : Nat → Nat × Nat × Nat)
    (fs : Nat → Nat) (k : Nat) : ProgState :=
  let st := printLine initialProgState "=== OpenTelemetry C++ Sample Application ==="
  let st := printLine st "Sending traces to Last9"
  let st := InitTracer env st
  let st := printLine st "Processing 10 requests..."
  let st := runLoop rands fs 1 num_requests st
  let st := printLine st "All requests processed. Flushing traces..."
  let st := CleanupTracer k st
  printLine st "Done! Check your Last9 dashboard for traces."

/-! ### Basic lemmas about the state operations -/

theorem updateSpan_length (l : List Span) (i : Nat) (f : Span → Span) :
    (updateSpan l i f).length = l.length := by
  induction l generalizing i with
  | nil => rfl
  | cons a l ih =>
    cases i with
    | zero => simp [updateSpan]
    | succ n => simp [updateSpan, ih]

theorem updateSpan_append (l m : List Span) (i : Nat) (f : Span → Span) :
    updateSpan (l ++ m) (l.length + i) f = l ++ updateSpan m i f := by
  induction l with
  | nil => simp
  | cons a l ih =>
    have : a :: l ++ m = a :: (l ++ m) := rfl
    rw [this]
    have harith : (a :: l).length + i = (l.length + i) + 1 := by
      simp [List.length_cons]; omega
    rw [harith]
    simp [updateSpan, ih]

theorem updateSpan_append_self (l m : List Span) (f : Span → Span) :
    updateSpan (l ++ m) l.length f = l ++ updateSpan m 0 f := by
  have := updateSpan_append l m 0 f
  simpa using this

/-! ### Closed forms for one request -/

/-- The attribute list the program attaches to the server span, in order. -/
def serverAttrs (request_id : Int) : List (String × AttrValue) :=
  [("http.method", AttrValue.str "GET"),
   ("http.scheme", AttrValue.str "http"),
   ("http.target", AttrValue.str "/roll-dice"),
   ("http.route", AttrValue.str "/roll-dice"),
   ("http.host", AttrValue.str "localhost:8080"),
   ("http.user_agent", AttrValue.str "curl/7.68.0"),
   ("http.request_content_length", AttrValue.int 0),
   ("net.host.name", AttrValue.str "localhost"),
   ("net.host.port", AttrValue.int 8080),
   ("request.id", AttrValue.int request_id),
   ("http.status_code", AttrValue.int 200),
   ("http.response_content_length", AttrValue.int 42)]

/-- The attribute list the program attaches to the client (database) span. -/
def clientAttrs : List (String × AttrValue) :=
  [("db.system", AttrValue.str "postgresql"),
   ("db.name", AttrValue.str "dice_db"),
   ("db.operation", AttrValue.str "INSERT"),
   ("db.statement", AttrValue.str "INSERT INTO rolls (value) VALUES ($1)"),
   ("net.peer.name", AttrValue.str "db.example.com"),
   ("net.peer.port", AttrValue.int 5432)]

/-- The three spans one `ProcessRequest` call appends, as a function of the
request id, the random draws, the clock value `c0` on entry, the span id
`n0` of the server span, and the parent `par` inherited from the stack. -/
def requestSpans (request_id : Int) (r1 r2 g : Nat) (par : Option Nat) (c0 n0 : Nat) :
    List Span :=
  [{ name := "GET /roll-dice", kind := SpanKind.server, parent := par,
     startTime := c0,
     endTime := some (c0 + 1 + (1 + (50 + r1 % 100) + 1) + (1 + (20 + r2 % 50) + 1)),
     attrs := serverAttrs request_id },
   { name := "roll_dice", kind := SpanKind.internal, parent := some n0,
     startTime := c0 + 1,
     endTime := some (c0 + 1 + (1 + (50 + r1 % 100))),
     attrs := [("dice.result", AttrValue.int (Int.ofNat (RollDice g)))] },
   { name := "postgresql.query", kind := SpanKind.client, parent := some n0,
     startTime := c0 + 1 + (1 + (50 + r1 % 100) + 1),
     endTime := some (c0 + 1 + (1 + (50 + r1 % 100) + 1) + (1 + (20 + r2 % 50))),
     attrs := clientAttrs }]

/-- The event trace one `ProcessRequest` call appends, as a function of the
request id, the dice generator draw, and the server span's id `n0`. -/
def requestEvents (request_id : Int) (g : Nat) (n0 : Nat) : List Event :=
  [Event.startSpan n0 "GET /roll-dice" SpanKind.server,
   Event.setAttribute n0 "http.method" (AttrValue.str "GET"),
   Event.setAttribute n0 "http.scheme" (AttrValue.str "http"),
   Event.setAttribute n0 "http.target" (AttrValue.str "/roll-dice"),
   Event.setAttribute n0 "http.route" (AttrValue.str "/roll-dice"),
   Event.setAttribute n0 "http.host" (AttrValue.str "localhost:8080"),
   Event.setAttribute n0 "http.user_agent" (AttrValue.str "curl/7.68.0"),
   Event.setAttribute n0 "http.request_content_length" (AttrValue.int 0),
   Event.setAttribute n0 "net.host.name" (AttrValue.str "localhost"),
   Event.setAttribute n0 "net.host.port" (AttrValue.int 8080),
   Event.setAttribute n0 "request.id" (AttrValue.int request_id),
   Event.startSpan (n0 + 1) "roll_dice" SpanKind.internal,
   Event.setAttribute (n0 + 1) "dice.result" (AttrValue.int (Int.ofNat (RollDice g))),
   Event.endSpan (n0 + 1),
   Event.startSpan (n0 + 2) "postgresql.query" SpanKind.client,
   Event.setAttribute (n0 + 2) "db.system" (AttrValue.str "postgresql"),
   Event.setAttribute (n0 + 2) "db.name" (AttrValue.str "dice_db"),
   Event.setAttribute (n0 + 2) "db.operation" (AttrValue.str "INSERT"),
   Event.setAttribute (n0 + 2) "db.statement" (AttrValue.str "INSERT INTO rolls (value) VALUES ($1)"),
   Event.setAttribute (n0 + 2) "net.peer.name" (AttrValue.str "db.example.com"),
   Event.setAttribute (n0 + 2) "net.peer.port" (AttrValue.int 5432),
   Event.endSpan (n0 + 2),
   Event.setAttribute n0 "http.status_code" (AttrValue.int 200),
   Event.setAttribute n0 "http.response_content_length" (AttrValue.int 42),
   Event.endSpan n0]

/-- The console line `ProcessRequest` prints. -/
def rollLine (request_id : Int) (g : Nat) : String :=
  "Request " ++ toString request_id ++ ": Rolled a " ++ toString (RollDice g)

/-- Closed form of `serverSetup`: one server-kind span is appended with the
ten HTTP attributes, its id is pushed on the stack, and the clock ticks
once. -/
theorem serverSetup_spec (request_id : Int) (st : ProgState) :
    serverSetup request_id st =
      { st with
        clock := st.clock + 1,
        spans := st.spans ++
          [{ name := "GET /roll-dice", kind := SpanKind.server, parent := st.stack.head?,
             startTime := st.clock, endTime := none,
             attrs := (serverAttrs request_id).take 10 }],
        stack := st.spans.length :: st.stack,
        events := st.events ++ (requestEvents request_id 0 st.spans.length).take 11 } := by
  obtain ⟨clock, provider, spans, stack, buffer, batches, lost, destroyed, events, output⟩ := st
  simp only [serverSetup, startSpan, withActiveSpan, setAttribute,
    List.head?_cons, List.length_append, updateSpan_length, List.length_cons,
    List.length_nil, List.append_assoc, List.singleton_append, List.cons_append,
    List.nil_append, updateSpan_append, updateSpan_append_self, updateSpan,
    addAttr, serverAttrs, requestEvents, List.take]

/-- Closed form of `internalBlock`: one internal-kind span is appended,
parented on the current top of stack, carrying the dice result; its id is
enqueued, the console line is printed, and the stack is restored. -/
theorem internalBlock_spec (request_id : Int) (r1 g : Nat) (st : ProgState) :
    internalBlock request_id r1 g st =
      { st with
        clock := st.clock + 1 + (50 + r1 % 100) + 1,
        spans := st.spans ++
          [{ name := "roll_dice", kind := SpanKind.internal, parent := st.stack.head?,
             startTime := st.clock, endTime := some (st.clock + 1 + (50 + r1 % 100)),
             attrs := [("dice.result", AttrValue.int (Int.ofNat (RollDice g)))] }],
        buffer := st.buffer ++ [st.spans.length],
        events := st.events ++
          [Event.startSpan st.spans.length "roll_dice" SpanKind.internal,
           Event.setAttribute st.spans.length "dice.result"
             (AttrValue.int (Int.ofNat (RollDice g))),
           Event.endSpan st.spans.length],
        output := st.output ++ [rollLine request_id g] } := by
  obtain ⟨clock, provider, spans, stack, buffer, batches, lost, destroyed, events, output⟩ := st
  simp only [internalBlock, startSpan, withActiveSpan, endScope, setAttribute, endSpan,
    sleep_for, printLine, rollLine, List.head?_cons, List.tail_cons, List.length_append,
    updateSpan_length, List.length_cons, List.length_nil, List.append_assoc,
    List.singleton_append, List.cons_append, List.nil_append,
    updateSpan_append, updateSpan_append_self, updateSpan, addAttr, setEnd]

/-- Closed form of `clientBlock`: one client-kind span is appended,
parented on the current top of stack, with the database attributes; its
id is enqueued and the stack is restored. -/
theorem clientBlock_spec (r2 : Nat) (st : ProgState) :
    clientBlock r2 st =
      { st with
        clock := st.clock + 1 + (20 + r2 % 50) + 1,
        spans := st.spans ++
          [{ name := "postgresql.query", kind := SpanKind.client, parent := st.stack.head?,
             startTime := st.clock, endTime := some (st.clock + 1 + (20 + r2 % 50)),
             attrs := clientAttrs }],
        buffer := st.buffer ++ [st.spans.length],
        events := st.events ++
          [Event.startSpan st.spans.length "postgresql.query" SpanKind.client,
           Event.setAttribute st.spans.length "db.system" (AttrValue.str "postgresql"),
           Event.setAttribute st.spans.length "db.name" (AttrValue.str "dice_db"),
           Event.setAttribute st.spans.length "db.operation" (AttrValue.str "INSERT"),
           Event.setAttribute st.spans.length "db.statement"
             (AttrValue.str "INSERT INTO rolls (value) VALUES ($1)"),
           Event.setAttribute st.spans.length "net.peer.name" (AttrValue.str "db.example.com"),
           Event.setAttribute st.spans.length "net.peer.port" (AttrValue.int 5432),
           Event.endSpan st.spans.length] } := by
  obtain ⟨clock, provider, spans, stack, buffer, batches, lost, destroyed, events, output⟩ := st
  simp only [clientBlock, startSpan, withActiveSpan, endScope, setAttribute, endSpan,
    sleep_for, clientAttrs, List.head?_cons, List.tail_cons, List.length_append,
    updateSpan_length, List.length_cons, List.length_nil, List.append_assoc,
    List.singleton_append, List.cons_append, List.nil_append,
    updateSpan_append, updateSpan_append_self, updateSpan, addAttr, setEnd]

set_option maxHeartbeats 800000 in
/-- Closed form of one `ProcessRequest` call: it appends exactly three spans
(server, internal, client), balances the active-span stack, enqueues the
three span ids in end order (internal, client, server), appends the event
trace and the console line, and advances the clock by the two simulated
sleeps plus six span-operation ticks.  Provider, batches and loss state
are untouched. -/
theorem ProcessRequest_spec (request_id : Int) (r1 r2 g : Nat) (st : ProgState) :
    ProcessRequest request_id r1 r2 g st =
      { st with
        clock := st.clock + 1 + (1 + (50 + r1 % 100) + 1) + (1 + (20 + r2 % 50) + 1) + 1,
        spans := st.spans ++
          requestSpans request_id r1 r2 g st.stack.head? st.clock st.spans.length,
        buffer := st.buffer ++ [st.spans.length + 1, st.spans.length + 2, st.spans.length],
        events := st.events ++ requestEvents request_id g st.spans.length,
        output := st.output ++ [rollLine request_id g] } := by
  obtain ⟨clock, provider, spans, stack, buffer, batches, lost, destroyed, events, output⟩ := st
  rw [ProcessRequest]
  rw [serverSetup_spec]
  rw [internalBlock_spec]
  rw [clientBlock_spec]
  simp only [setAttribute, endSpan, endScope, List.head?_cons, List.tail_cons,
    List.length_append, updateSpan_length, List.length_cons, List.length_nil,
    List.append_assoc, List.singleton_append, List.cons_append, List.nil_append,
    updateSpan_append, updateSpan_append_self, updateSpan, addAttr, setEnd,
    serverAttrs, clientAttrs, requestSpans, requestEvents, rollLine, List.take]
  simp only [ProgState.mk.injEq, Span.mk.injEq, List.cons.injEq, Option.some.injEq,
    List.append_cancel_left_eq, List.append_assoc, List.cons_append, List.nil_append,
    Prod.mk.injEq, and_true, true_and]
  omega

/-! ### Projection and preservation lemmas for the remaining operations -/

theorem printLine_eq (st : ProgState) (line : String) :
    printLine st line = { st with output := st.output ++ [line] } := by
  cases st
  rfl

theorem sleep_for_eq (st : ProgState) (ms : Nat) :
    sleep_for st ms = { st with clock := st.clock + ms } := by
  cases st
  rfl

/-- The resource attributes `InitTracer` builds from the environment. -/
def resourceFor (env : String → Option String) : List (String × String) :=
  [(kServiceName, GetEnvVar env "OTEL_SERVICE_NAME" "cpp-sample-app"),
   ("deployment.environment", GetEnvVar env "DEPLOYMENT_ENVIRONMENT" "local")]

/-- The tracer provider `InitTracer` installs. -/
def initProvider (env : String → Option String) : TracerProvider :=
  { resourceAttributes := resourceFor env,
    max_queue_size := 2048,
    max_export_batch_size := 512 }

theorem InitTracer_eq (env : String → Option String) (st : ProgState) :
    InitTracer env st =
      { st with
        provider := some (initProvider env),
        destroyedProviders :=
          st.destroyedProviders + (if st.provider.isSome then 1 else 0),
        output := st.output ++
          ["Tracer initialized successfully!",
           "Service: " ++ GetEnvVar env "OTEL_SERVICE_NAME" "cpp-sample-app" ++
             ", Environment: " ++ GetEnvVar env "DEPLOYMENT_ENVIRONMENT" "local"] } := by
  cases st
  simp only [InitTracer, SetTracerProvider, printLine, initProvider, resourceFor,
    List.append_assoc, List.cons_append, List.singleton_append, List.nil_append]

theorem flushBatch_none (st : ProgState) (h : st.provider = none) : flushBatch st = st := by
  rw [flushBatch.eq_def, h]

theorem flushIter_none (k : Nat) (st : ProgState) (h : st.provider = none) :
    flushBatch^[k] st = st := by
  induction k with
  | zero => rfl
  | succ n ih => rw [Function.iterate_succ_apply, flushBatch_none st h, ih]

theorem flushBatch_spans (st : ProgState) : (flushBatch st).spans = st.spans := by
  rw [flushBatch.eq_def]
  rcases st.provider with _ | p
  · rfl
  · dsimp only
    split <;> rfl

theorem flushBatch_clock (st : ProgState) : (flushBatch st).clock = st.clock := by
  rw [flushBatch.eq_def]
  rcases st.provider with _ | p
  · rfl
  · dsimp only
    split <;> rfl

theorem flushBatch_provider (st : ProgState) : (flushBatch st).provider = st.provider := by
  rw [flushBatch.eq_def]
  rcases hp : st.provider with _ | p
  · simp [hp]
  · dsimp only
    split <;> simp [hp]

theorem flushBatch_lost (st : ProgState) : (flushBatch st).lost = st.lost := by
  rw [flushBatch.eq_def]
  rcases st.provider with _ | p
  · rfl
  · dsimp only
    split <;> rfl

theorem flushBatch_events (st : ProgState) : (flushBatch st).events = st.events := by
  rw [flushBatch.eq_def]
  rcases st.provider with _ | p
  · rfl
  · dsimp only
    split <;> rfl

theorem flushBatch_output (st : ProgState) : (flushBatch st).output = st.output := by
  rw [flushBatch.eq_def]
  rcases st.provider with _ | p
  · rfl
  · dsimp only
    split <;> rfl

theorem flushBatch_destroyed (st : ProgState) :
    (flushBatch st).destroyedProviders = st.destroyedProviders := by
  rw [flushBatch.eq_def]
  rcases st.provider with _ | p
  · rfl
  · dsimp only
    split <;> rfl

theorem flushIter_spans (k : Nat) (st : ProgState) :
    (flushBatch^[k] st).spans = st.spans := by
  induction k generalizing st with
  | zero => rfl
  | succ n ih => rw [Function.iterate_succ_apply, ih, flushBatch_spans]

theorem flushIter_clock (k : Nat) (st : ProgState) :
    (flushBatch^[k] st).clock = st.clock := by
  induction k generalizing st with
  | zero => rfl
  | succ n ih => rw [Function.iterate_succ_apply, ih, flushBatch_clock]

theorem flushIter_provider (k : Nat) (st : ProgState) :
    (flushBatch^[k] st).provider = st.provider := by
  induction k generalizing st with
  | zero => rfl
  | succ n ih => rw [Function.iterate_succ_apply, ih, flushBatch_provider]

theorem flushIter_lost (k : Nat) (st : ProgState) :
    (flushBatch^[k] st).lost = st.lost := by
  induction k generalizing st with
  | zero => rfl
  | succ n ih => rw [Function.iterate_succ_apply, ih, flushBatch_lost]

theorem flushIter_destroyed (k : Nat) (st : ProgState) :
    (flushBatch^[k] st).destroyedProviders = st.destroyedProviders := by
  induction k generalizing st with
  | zero => rfl
  | succ n ih => rw [Function.iterate_succ_apply, ih, flushBatch_destroyed]

/-! ### Counting spans by kind -/

/-- The number of spans of kind `k` in a span list. -/
def countKind (l : List Span) (k : SpanKind) : Nat :=
  (l.filter (fun s => s.kind == k)).length

theorem countKind_append (l m : List Span) (k : SpanKind) :
    countKind (l ++ m) k = countKind l k + countKind m k := by
  simp [countKind, List.filter_append]

theorem countKind_requestSpans (request_id : Int) (r1 r2 g : Nat) (par : Option Nat)
    (c0 n0 : Nat) (k : SpanKind) :
    countKind (requestSpans request_id r1 r2 g par c0 n0) k = 1 := by
  cases k <;> rfl

theorem ProcessRequest_countKind (request_id : Int) (r1 r2 g : Nat) (st : ProgState)
    (k : SpanKind) :
    countKind (ProcessRequest request_id r1 r2 g st).spans k = countKind st.spans k + 1 := by
  rw [ProcessRequest_spec]
  simp [countKind_append, countKind_requestSpans]

theorem runLoop_countKind (rands : Nat → Nat × Nat × Nat) (fs : Nat → Nat) (k : SpanKind) :
    ∀ (n i : Nat) (st : ProgState),
      countKind (runLoop rands fs i n st).spans k = countKind st.spans k + n := by
  intro n
  induction n with
  | zero => intro i st; rfl
  | succ m ih =>
    intro i st
    rw [runLoop]
    rw [ih]
    rw [flushIter_spans, sleep_for_eq]
    simp only [ProcessRequest_countKind]
    omega

theorem CleanupTracer_spans (k : Nat) (st : ProgState) :
    (CleanupTracer k st).spans = st.spans := by
  rw [CleanupTracer]
  rw [printLine_eq]
  simp only [SetTracerProvider]
  rw [flushIter_spans, sleep_for_eq]

theorem CleanupTracer_provider (k : Nat) (st : ProgState) :
    (CleanupTracer k st).provider = none := by
  rw [CleanupTracer]
  rw [printLine_eq]
  simp [SetTracerProvider]

theorem CleanupTracer_clock (k : Nat) (st : ProgState) :
    (CleanupTracer k st).clock = st.clock + 2000 := by
  rw [CleanupTracer]
  rw [printLine_eq]
  simp only [SetTracerProvider]
  rw [flushIter_clock, sleep_for_eq]

theorem CleanupTracer_buffer (k : Nat) (st : ProgState) :
    (CleanupTracer k st).buffer = [] := by
  rw [CleanupTracer]
  rw [printLine_eq]
  simp [SetTracerProvider]

theorem CleanupTracer_lost (k : Nat) (st : ProgState) :
    (CleanupTracer k st).lost =
      st.lost ++ (flushBatch^[k] (sleep_for st 2000)).buffer := by
  rw [CleanupTracer]
  rw [printLine_eq]
  simp only [SetTracerProvider]
  rw [flushIter_lost, sleep_for_eq]

theorem CleanupTracer_batches (k : Nat) (st : ProgState) :
    (CleanupTracer k st).batches = (flushBatch^[k] (sleep_for st 2000)).batches := by
  rw [CleanupTracer]
  rw [printLine_eq]
  simp [SetTracerProvider]

theorem CleanupTracer_destroyed (k : Nat) (st : ProgState) :
    (CleanupTracer k st).destroyedProviders =
      st.destroyedProviders + (if st.provider.isSome then 1 else 0) := by
  rw [CleanupTracer]
  rw [printLine_eq]
  simp only [SetTracerProvider]
  rw [flushIter_destroyed, flushIter_provider, sleep_for_eq]

/-! ### Conservation of buffered spans through flushes -/

/-- All span ids appearing in a list of emitted batches, in order. -/
def batchedIds (bs : List Batch) : List Nat :=
  (bs.map Batch.spanIds).flatten

theorem flushBatch_conserve (st : ProgState) :
    batchedIds (flushBatch st).batches ++ (flushBatch st).buffer =
      batchedIds st.batches ++ st.buffer := by
  rw [flushBatch.eq_def]
  rcases st.provider with _ | p
  · rfl
  · dsimp only
    split
    · rfl
    · simp [batchedIds, List.append_assoc]

theorem flushIter_conserve (k : Nat) (st : ProgState) :
    batchedIds (flushBatch^[k] st).batches ++ (flushBatch^[k] st).buffer =
      batchedIds st.batches ++ st.buffer := by
  induction k generalizing st with
  | zero => rfl
  | succ n ih => rw [Function.iterate_succ_apply, ih, flushBatch_conserve]

/-! ### States reachable in one process run -/

/-- The states the program can be in after provider initialization with
environment `env`: the run starts with `InitTracer` applied to a pre-init
state with no emitted batches, and proceeds by the program's own
operations (requests, pauses, console output, background flushes of the
batch processor, and shutdown). -/
inductive Reachable (env : String → Option String) : ProgState → Prop where
  | init (s : ProgState) (hs : s.batches = []) : Reachable env (InitTracer env s)
  | processRequest (st : ProgState) (request_id : Int) (r1 r2 g : Nat)
      (hr : Reachable env st) : Reachable env (ProcessRequest request_id r1 r2 g st)
  | pause (st : ProgState) (ms : Nat) (hr : Reachable env st) :
      Reachable env (sleep_for st ms)
  | consoleLine (st : ProgState) (line : String) (hr : Reachable env st) :
      Reachable env (printLine st line)
  | flush (st : ProgState) (hr : Reachable env st) : Reachable env (flushBatch st)
  | cleanup (st : ProgState) (k : Nat) (hr : Reachable env st) :
      Reachable env (CleanupTracer k st)

/-- The resource invariant: every emitted batch carries the attributes the
provider was built with, and the installed provider is either the one
from initialization or already cleared. -/
def ResourceInv (env : String → Option String) (st : ProgState) : Prop :=
  (∀ b ∈ st.batches, b.resourceAttributes = resourceFor env)
  ∧ (st.provider = some (initProvider env) ∨ st.provider = none)

theorem flushBatch_inv (env : String → Option String) (st : ProgState)
    (h : ResourceInv env st) : ResourceInv env (flushBatch st) := by
  obtain ⟨h1, h2⟩ := h
  constructor
  · intro b hb
    rw [flushBatch.eq_def] at hb
    rcases hp : st.provider with _ | p
    · rw [hp] at hb
      exact h1 b hb
    · rw [hp] at hb
      dsimp only at hb
      by_cases he : st.buffer.isEmpty
      · rw [if_pos he] at hb
        exact h1 b hb
      · rw [if_neg he] at hb
        have hb' : b ∈ st.batches ++
            [{ spanIds := st.buffer.take p.max_export_batch_size,
               resourceAttributes := p.resourceAttributes }] := hb
        rcases List.mem_append.mp hb' with hold | hnew
        · exact h1 b hold
        · have hp' : p = initProvider env := by
            rcases h2 with hsome | hnone
            · rw [hp] at hsome
              exact Option.some.inj hsome
            · rw [hp] at hnone
              exact absurd hnone (by simp)
          have hbeq : b = { spanIds := st.buffer.take p.max_export_batch_size,
                            resourceAttributes := p.resourceAttributes } := by
            simpa using hnew
          rw [hbeq, hp']
          rfl
  · rw [flushBatch_provider]
    exact h2

theorem flushIter_inv (env : String → Option String) (k : Nat) (st : ProgState)
    (h : ResourceInv env st) : ResourceInv env (flushBatch^[k] st) := by
  induction k generalizing st with
  | zero => exact h
  | succ n ih => rw [Function.iterate_succ_apply]; exact ih _ (flushBatch_inv env st h)

theorem flushIter_reachable (env : String → Option String) (k : Nat) (st : ProgState)
    (h : Reachable env st) : Reachable env (flushBatch^[k] st) := by
  induction k generalizing st with
  | zero => exact h
  | succ n ih => rw [Function.iterate_succ_apply]; exact ih _ (Reachable.flush st h)

theorem runLoop_reachable (env : String → Option String) (rands : Nat → Nat × Nat × Nat)
    (fs : Nat → Nat) : ∀ (n i : Nat) (st : ProgState),
    Reachable env st → Reachable env (runLoop rands fs i n st) := by
  intro n
  induction n with
  | zero => intro i st h; exact h
  | succ m ih =>
    intro i st h
    rw [runLoop]
    exact ih (i + 1) _ (flushIter_reachable env (fs i) _
      (Reachable.pause _ 500 (Reachable.processRequest st (Int.ofNat i)
        (rands i).1 (rands i).2.1 (rands i).2.2 h)))

theorem mainProgram_reachable (env : String → Option String)
    (rands : Nat → Nat × Nat × Nat) (fs : Nat → Nat) (k : Nat) :
    Reachable env (mainProgram env rands fs k) := by
  rw [mainProgram]
  apply Reachable.consoleLine
  apply Reachable.cleanup
  apply Reachable.consoleLine
  apply runLoop_reachable
  apply Reachable.consoleLine
  exact Reachable.init _ rfl

theorem InitTracer_spans (env : String → Option String) (st : ProgState) :
    (InitTracer env st).spans = st.spans := by
  rw [InitTracer_eq]

/-- A shutdown applied to a state whose provider is already cleared and
whose batch queue is empty only sleeps and prints: every other component
is unchanged, and nothing is destroyed. -/
theorem CleanupTracer_cleared (k : Nat) (s : ProgState)
    (h1 : s.provider = none) (h2 : s.buffer = []) :
    CleanupTracer k s =
      { s with clock := s.clock + 2000,
               output := s.output ++ ["Tracer cleaned up."] } := by
  have h3 : (sleep_for s 2000).provider = none := by rw [sleep_for_eq]; exact h1
  rw [CleanupTracer, flushIter_none k _ h3, sleep_for_eq, printLine_eq]
  simp [SetTracerProvider, h1, h2]

theorem printLine_spans (st : ProgState) (line : String) :
    (printLine st line).spans = st.spans := by
  rw [printLine_eq]

/-! ### The claims -/

/-- C1: Every run of the driver loop with its fixed N = 10 simulated
requests produces exactly 10 spans of every kind (server, internal,
client), whatever the environment, the random draws and the background
flush schedule; and each single `ProcessRequest` call adds exactly one
span of each kind (1:1:1 ratio). -/
theorem spec_C1 :
    (∀ (env : String → Option String) (rands : Nat → Nat × Nat × Nat)
       (fs : Nat → Nat) (k : Nat) (kd : SpanKind),
        countKind (mainProgram env rands fs k).spans kd = 10)
    ∧ (∀ (request_id : Int) (r1 r2 g : Nat) (st : ProgState) (kd : SpanKind),
        countKind (ProcessRequest request_id r1 r2 g st).spans kd =
          countKind st.spans kd + 1) := by
  constructor
  · intro env rands fs k kd
    simp only [mainProgram, printLine_spans, CleanupTracer_spans]
    rw [runLoop_countKind]
    simp only [printLine_spans, InitTracer_spans]
    rfl
  · intro request_id r1 r2 g st kd
    exact ProcessRequest_countKind request_id r1 r2 g st kd

/-- C2: For every simulated request the three spans are ended internal
first, then client, then server (their recorded end times are strictly
increasing in that order), so the server span's end time is at least
every child's end time, and each child's start timestamp is at least the
server span's start timestamp. -/
theorem spec_C2 (request_id : Int) (r1 r2 g : Nat) (st : ProgState) :
    ∃ sv si sc : Span,
      (ProcessRequest request_id r1 r2 g st).spans = st.spans ++ [sv, si, sc]
      ∧ sv.kind = SpanKind.server ∧ si.kind = SpanKind.internal
      ∧ sc.kind = SpanKind.client
      ∧ ∃ endv endi endc : Nat,
          sv.endTime = some endv ∧ si.endTime = some endi ∧ sc.endTime = some endc
          ∧ endi < endc ∧ endc < endv
          ∧ endi ≤ endv ∧ endc ≤ endv
          ∧ sv.startTime ≤ si.startTime ∧ sv.startTime ≤ sc.startTime := by
  rw [ProcessRequest_spec]
  simp only [requestSpans]
  refine ⟨_, _, _, rfl, rfl, rfl, rfl, _, _, _, rfl, rfl, rfl, ?_, ?_, ?_, ?_, ?_, ?_⟩
  all_goals dsimp only
  all_goals omega

/-- C6: Both child spans of a request are started while the server span is
the active span on the context stack, so each records the server span
(the span appended at index `st.spans.length`) as its implicit parent;
the activation stack is balanced, ending as it began. -/
theorem spec_C6 (request_id : Int) (r1 r2 g : Nat) (st : ProgState) :
    ∃ sv si sc : Span,
      (ProcessRequest request_id r1 r2 g st).spans = st.spans ++ [sv, si, sc]
      ∧ (st.spans ++ [sv, si, sc])[st.spans.length]? = some sv
      ∧ sv.kind = SpanKind.server ∧ si.kind = SpanKind.internal
      ∧ sc.kind = SpanKind.client
      ∧ si.parent = some st.spans.length ∧ sc.parent = some st.spans.length
      ∧ (ProcessRequest request_id r1 r2 g st).stack = st.stack := by
  rw [ProcessRequest_spec]
  simp only [requestSpans]
  refine ⟨_, _, _, rfl, ?_, ?_, ?_, ?_, ?_, ?_, ?_⟩
  · rw [List.getElem?_append_right (Nat.le_refl _)]
    simp
  all_goals trivial

/-- C7: Running the shutdown twice does not double-free the provider: after
the first `CleanupTracer` the global provider is already cleared, and the
second call only sleeps and prints, leaving the provider (still empty),
the spans, the buffer, the batches, the loss record and the
destroyed-provider count unchanged. -/
theorem spec_C7 (k1 k2 : Nat) (st : ProgState) :
    CleanupTracer k2 (CleanupTracer k1 st) =
      { CleanupTracer k1 st with
        clock := (CleanupTracer k1 st).clock + 2000,
        output := (CleanupTracer k1 st).output ++ ["Tracer cleaned up."] }
    ∧ (CleanupTracer k2 (CleanupTracer k1 st)).provider = none
    ∧ (CleanupTracer k2 (CleanupTracer k1 st)).destroyedProviders =
        (CleanupTracer k1 st).destroyedProviders := by
  have h := CleanupTracer_cleared k2 (CleanupTracer k1 st)
    (CleanupTracer_provider k1 st) (CleanupTracer_buffer k1 st)
  refine ⟨h, ?_, ?_⟩
  · rw [h]
    exact CleanupTracer_provider k1 st
  · rw [h]

/-- Uniformity of the modeled dice distribution: over any whole number of
generator periods, every face `k ∈ [1,6]` is hit exactly `n` times. -/
theorem RollDice_uniform (n k : Nat) (h1 : 1 ≤ k) (h2 : k ≤ 6) :
    (List.range (6 * n)).countP (fun g => RollDice g == k) = n := by
  induction n with
  | zero => rfl
  | succ m ih =>
    have h6 : 6 * (m + 1) = 6 * m + 6 := by ring
    rw [h6, List.range_add, List.countP_append, ih]
    rw [show List.range 6 = [0, 1, 2, 3, 4, 5] from rfl]
    simp only [List.map_cons, List.map_nil, List.countP_cons, List.countP_nil, RollDice,
      Nat.mul_add_mod]
    interval_cases k <;> simp

/-- C3: `RollDice` always returns an integer in `[1, 6]`; over the
generator draws the outcome is uniform (each face occurs exactly `n`
times in `6 * n` consecutive draws); and the outcome is recorded as the
`dice.result` attribute of the internal-kind span of the request. -/
theorem spec_C3 :
    (∀ g : Nat, 1 ≤ RollDice g ∧ RollDice g ≤ 6)
    ∧ (∀ n k : Nat, 1 ≤ k → k ≤ 6 →
        (List.range (6 * n)).countP (fun g => RollDice g == k) = n)
    ∧ (∀ (request_id : Int) (r1 r2 g : Nat) (st : ProgState),
        ∃ si ∈ (ProcessRequest request_id r1 r2 g st).spans,
          si.kind = SpanKind.internal
          ∧ ("dice.result", AttrValue.int (Int.ofNat (RollDice g))) ∈ si.attrs) := by
  refine ⟨?_, RollDice_uniform, ?_⟩
  · intro g
    simp only [RollDice]
    omega
  · intro request_id r1 r2 g st
    refine ⟨{ name := "roll_dice", kind := SpanKind.internal,
              parent := some st.spans.length, startTime := st.clock + 1,
              endTime := some (st.clock + 1 + (1 + (50 + r1 % 100))),
              attrs := [("dice.result", AttrValue.int (Int.ofNat (RollDice g)))] },
            ?_, rfl, ?_⟩
    · rw [ProcessRequest_spec]
      simp [requestSpans]
    · simp

theorem spec_C3_witness :
    (1 ≤ RollDice 0 ∧ RollDice 0 ≤ 6)
    ∧ (List.range (6 * 2)).countP (fun g => RollDice g == 3) = 2
    ∧ (∃ si ∈ (ProcessRequest 1 0 0 0 initialProgState).spans,
        si.kind = SpanKind.internal
        ∧ ("dice.result", AttrValue.int (Int.ofNat (RollDice 0))) ∈ si.attrs) :=
  ⟨spec_C3.1 0, spec_C3.2.1 2 3 (by decide) (by decide),
   spec_C3.2.2 1 0 0 0 initialProgState⟩

/-- C4: `GetEnvVar` returns the variable's value when the environment
defines it and the supplied default otherwise (no error path); with
`OTEL_SERVICE_NAME` unset the installed provider's service-name resource
attribute is the literal `"cpp-sample-app"`, and with
`DEPLOYMENT_ENVIRONMENT` unset the deployment-environment attribute is
`"local"`. -/
theorem spec_C4 :
    (∀ (env : String → Option String) (name d v : String),
        env name = some v → GetEnvVar env name d = v)
    ∧ (∀ (env : String → Option String) (name d : String),
        env name = none → GetEnvVar env name d = d)
    ∧ (∀ (env : String → Option String) (st : ProgState),
        env "OTEL_SERVICE_NAME" = none →
        ∃ p : TracerProvider, (InitTracer env st).provider = some p
          ∧ (kServiceName, "cpp-sample-app") ∈ p.resourceAttributes)
    ∧ (∀ (env : String → Option String) (st : ProgState),
        env "DEPLOYMENT_ENVIRONMENT" = none →
        ∃ p : TracerProvider, (InitTracer env st).provider = some p
          ∧ ("deployment.environment", "local") ∈ p.resourceAttributes) := by
  refine ⟨?_, ?_, ?_, ?_⟩
  · intro env name d v h
    rw [GetEnvVar, h]
  · intro env name d h
    rw [GetEnvVar, h]
  · intro env st h
    refine ⟨initProvider env, ?_, ?_⟩
    · rw [InitTracer_eq]
    · simp [initProvider, resourceFor, GetEnvVar, h]
  · intro env st h
    refine ⟨initProvider env, ?_, ?_⟩
    · rw [InitTracer_eq]
    · simp [initProvider, resourceFor, GetEnvVar, h]

theorem spec_C4_witness :
    GetEnvVar (fun _ => none) "OTEL_SERVICE_NAME" "cpp-sample-app" = "cpp-sample-app"
    ∧ GetEnvVar (fun _ => some "svc") "OTEL_SERVICE_NAME" "cpp-sample-app" = "svc"
    ∧ (∃ p : TracerProvider,
        (InitTracer (fun _ => none) initialProgState).provider = some p
        ∧ (kServiceName, "cpp-sample-app") ∈ p.resourceAttributes)
    ∧ (∃ p : TracerProvider,
        (InitTracer (fun _ => none) initialProgState).provider = some p
        ∧ ("deployment.environment", "local") ∈ p.resourceAttributes) :=
  ⟨spec_C4.2.1 (fun _ => none) "OTEL_SERVICE_NAME" "cpp-sample-app" rfl,
   spec_C4.1 (fun _ => some "svc") "OTEL_SERVICE_NAME" "cpp-sample-app" "svc" rfl,
   spec_C4.2.2.1 (fun _ => none) initialProgState rfl,
   spec_C4.2.2.2 (fun _ => none) initialProgState rfl⟩

/-- C5: Shutdown blocks for exactly the fixed 2000 ms wait (during which
the batch worker may flush), then clears the global provider and
proceeds; afterwards the processor queue is empty, the span ids still
queued after the wait are recorded as lost, and every id buffered before
shutdown ends up either exported in some batch or lost (best-effort, no
other fate). -/
theorem spec_C5 (k : Nat) (st : ProgState) :
    (CleanupTracer k st).provider = none
    ∧ (CleanupTracer k st).clock = st.clock + 2000
    ∧ (CleanupTracer k st).buffer = []
    ∧ (CleanupTracer k st).lost =
        st.lost ++ (flushBatch^[k] (sleep_for st 2000)).buffer
    ∧ (∀ id : Nat, id ∈ st.buffer →
        id ∈ batchedIds (CleanupTracer k st).batches
        ∨ id ∈ (CleanupTracer k st).lost) := by
  refine ⟨CleanupTracer_provider k st, CleanupTracer_clock k st, CleanupTracer_buffer k st,
    CleanupTracer_lost k st, ?_⟩
  intro id hid
  have h1 : batchedIds (flushBatch^[k] (sleep_for st 2000)).batches ++
      (flushBatch^[k] (sleep_for st 2000)).buffer =
      batchedIds st.batches ++ st.buffer := by
    rw [flushIter_conserve, sleep_for_eq]
  have h2 : id ∈ batchedIds (flushBatch^[k] (sleep_for st 2000)).batches ++
      (flushBatch^[k] (sleep_for st 2000)).buffer := by
    rw [h1]
    exact List.mem_append_right _ hid
  rcases List.mem_append.mp h2 with h | h
  · left
    rw [CleanupTracer_batches]
    exact h
  · right
    rw [CleanupTracer_lost]
    exact List.mem_append_right _ h

theorem spec_C5_witness :
    (CleanupTracer 0 { initialProgState with buffer := [7] }).provider = none
    ∧ (7 ∈ batchedIds (CleanupTracer 0 { initialProgState with buffer := [7] }).batches
       ∨ 7 ∈ (CleanupTracer 0 { initialProgState with buffer := [7] }).lost) :=
  ⟨(spec_C5 0 { initialProgState with buffer := [7] }).1,
   (spec_C5 0 { initialProgState with buffer := [7] }).2.2.2.2 7 (by decide)⟩

/-- C8: The resource descriptor is built exactly once by `InitTracer` from
the service-name and deployment-environment configuration; in every state
reachable during one process run the installed provider is either still
that one or already cleared (never a mutated one), and every batch
emitted in the run carries exactly the initialization-time resource
attributes — in particular in every complete `mainProgram` run. -/
theorem spec_C8 (env : String → Option String) :
    (∀ st : ProgState, Reachable env st →
      (∀ b ∈ st.batches, b.resourceAttributes = resourceFor env)
      ∧ (st.provider = some (initProvider env) ∨ st.provider = none))
    ∧ (∀ (rands : Nat → Nat × Nat × Nat) (fs : Nat → Nat) (k : Nat),
        ∀ b ∈ (mainProgram env rands fs k).batches,
          b.resourceAttributes = resourceFor env) := by
  have main : ∀ st : ProgState, Reachable env st → ResourceInv env st := by
    intro st h
    induction h with
    | init s hs =>
      constructor
      · intro b hb
        rw [InitTracer_eq] at hb
        have hb' : b ∈ s.batches := hb
        rw [hs] at hb'
        exact absurd hb' (List.not_mem_nil b)
      · left
        rw [InitTracer_eq]
    | processRequest st request_id r1 r2 g hr ih =>
      obtain ⟨ih1, ih2⟩ := ih
      constructor
      · intro b hb
        rw [ProcessRequest_spec] at hb
        exact ih1 b hb
      · rw [ProcessRequest_spec]
        exact ih2
    | pause st ms hr ih =>
      obtain ⟨ih1, ih2⟩ := ih
      constructor
      · intro b hb
        rw [sleep_for_eq] at hb
        exact ih1 b hb
      · rw [sleep_for_eq]
        exact ih2
    | consoleLine st line hr ih =>
      obtain ⟨ih1, ih2⟩ := ih
      constructor
      · intro b hb
        rw [printLine_eq] at hb
        exact ih1 b hb
      · rw [printLine_eq]
        exact ih2
    | flush st hr ih => exact flushBatch_inv env st ih
    | cleanup st k hr ih =>
      obtain ⟨ih1, ih2⟩ := ih
      have hinv : ResourceInv env (sleep_for st 2000) := by
        constructor
        · intro b hb
          rw [sleep_for_eq] at hb
          exact ih1 b hb
        · rw [sleep_for_eq]
          exact ih2
      obtain ⟨h21, h22⟩ := flushIter_inv env k (sleep_for st 2000) hinv
      constructor
      · intro b hb
        rw [CleanupTracer_batches] at hb
        exact h21 b hb
      · right
        exact CleanupTracer_provider k st
  constructor
  · exact main
  · intro rands fs k b hb
    exact (main _ (mainProgram_reachable env rands fs k)).1 b hb

theorem spec_C8_witness :
    (∀ b ∈ (InitTracer (fun _ => none) initialProgState).batches,
      b.resourceAttributes = resourceFor (fun _ => none))
    ∧ ((InitTracer (fun _ => none) initialProgState).provider =
        some (initProvider (fun _ => none))
       ∨ (InitTracer (fun _ => none) initialProgState).provider = none) :=
  (spec_C8 (fun _ => none)).1 _ (Reachable.init initialProgState rfl)

/-- An event's `dice.result` attribute value replaced by a fixed
placeholder; all other events are untouched. -/
def scrubEvent : Event → Event
  | Event.setAttribute id key value =>
    Event.setAttribute id key (if key = "dice.result" then AttrValue.int 0 else value)
  | e => e

/-- A span's randomness-independent shape: name, kind, parent, and its
attribute list with the `dice.result` value replaced by a placeholder
(timestamps excluded). -/
def spanShape (s : Span) : String × SpanKind × Option Nat × List (String × AttrValue) :=
  (s.name, s.kind, s.parent,
   s.attrs.map (fun kv => (kv.1, if kv.1 = "dice.result" then AttrValue.int 0 else kv.2)))

/-- C9: The random draws do not steer control flow: two `ProcessRequest`
runs with the same request id and the same prior state but different
random values produce the same sequence of span start/end/attribute
events up to the `dice.result` attribute value, spans of the same shape
(name, kind, parent, attributes) up to that value, and console output
that differs only in the single roll-report line. -/
theorem spec_C9 (request_id : Int) (r1 r2 g r1' r2' g' : Nat) (st : ProgState) :
    ((ProcessRequest request_id r1 r2 g st).events).map scrubEvent =
      ((ProcessRequest request_id r1' r2' g' st).events).map scrubEvent
    ∧ ((ProcessRequest request_id r1 r2 g st).spans).map spanShape =
      ((ProcessRequest request_id r1' r2' g' st).spans).map spanShape
    ∧ (∃ line1 line2 : String,
        (ProcessRequest request_id r1 r2 g st).output = st.output ++ [line1]
        ∧ (ProcessRequest request_id r1' r2' g' st).output = st.output ++ [line2]) := by
  refine ⟨?_, ?_, ?_⟩
  · simp only [ProcessRequest_spec]
    simp [requestEvents, scrubEvent]
  · simp only [ProcessRequest_spec]
    simp [requestSpans, spanShape, serverAttrs, clientAttrs]
  · exact ⟨rollLine request_id g, rollLine request_id g',
      by rw [ProcessRequest_spec], by rw [ProcessRequest_spec]⟩

/-- True exactly for a start event of span `id`. -/
def isStartOf (id : Nat) : Event → Bool
  | Event.startSpan i _ _ => i == id
  | Event.setAttribute _ _ _ => false
  | Event.endSpan _ => false

/-- True exactly for an end event of span `id`. -/
def isEndOf (id : Nat) : Event → Bool
  | Event.endSpan i => i == id
  | Event.startSpan _ _ _ => false
  | Event.setAttribute _ _ _ => false

/-- C10: Within one `ProcessRequest` call every started span is ended
exactly once before the call returns: per span id the event trace has as
many end events as start events and never more than one end event, every
appended span carries an end time, and the final span operation of the
call is ending the server span. -/
theorem spec_C10 (request_id : Int) (r1 r2 g : Nat) (st : ProgState) :
    (ProcessRequest request_id r1 r2 g st).events =
      st.events ++ requestEvents request_id g st.spans.length
    ∧ (ProcessRequest request_id r1 r2 g st).spans =
      st.spans ++ requestSpans request_id r1 r2 g st.stack.head? st.clock st.spans.length
    ∧ (requestSpans request_id r1 r2 g st.stack.head? st.clock st.spans.length).all
        (fun s => s.endTime.isSome) = true
    ∧ (∀ id : Nat,
        (requestEvents request_id g st.spans.length).countP (isStartOf id) =
          (requestEvents request_id g st.spans.length).countP (isEndOf id)
        ∧ (requestEvents request_id g st.spans.length).countP (isEndOf id) ≤ 1)
    ∧ (requestEvents request_id g st.spans.length).getLast? =
        some (Event.endSpan st.spans.length) := by
  refine ⟨?_, ?_, rfl, ?_, ?_⟩
  · rw [ProcessRequest_spec]
  · rw [ProcessRequest_spec]
  · intro id
    constructor
    · simp only [requestEvents, isStartOf, isEndOf, List.countP_cons, List.countP_nil,
        beq_iff_eq, Bool.false_eq_true, if_false, Nat.add_zero, Nat.zero_add]
      split_ifs <;> omega
    · simp only [requestEvents, isStartOf, isEndOf, List.countP_cons, List.countP_nil,
        beq_iff_eq, Bool.false_eq_true, if_false, Nat.add_zero, Nat.zero_add]
      split_ifs <;> omega
  · rfl
